import Mathlib

/-!
Shallow embedding of the `email-clients` Rust crate
(`src/email.rs`, `src/errors.rs`, `src/configuration.rs`, `src/traits.rs`,
`src/clients/{terminal,memory,smtp,mailersend,mod}.rs`).

External library calls (std mpsc channels, lettre, reqwest) are embedded by
their documented behaviour; where a library call is fallible, its result is an
explicit parameter of the embedding (a `SendEnv` oracle), so theorems quantify
over every behaviour the library's type permits.
-/

namespace EmailClients

/-- Rust struct `EmailAddress` from `src/email.rs`: a display name plus a bare
email string. -/
structure EmailAddress where
  name : String
  email : String
deriving DecidableEq, Repr

/-- Rust `impl Display for EmailAddress`: "name <email>" when `name` is
non-empty, otherwise the bare email. -/
def EmailAddress.display (a : EmailAddress) : String :=
  if a.name = "" then a.email else a.name ++ " <" ++ a.email ++ ">"

/-- Rust `impl From<&str> for EmailAddress`: empty name, the string as email. -/
def EmailAddress.ofStr (s : String) : EmailAddress :=
  { name := "", email := s }

/-- Rust `#[derive(Default)]` for `EmailAddress`: both fields empty. -/
def EmailAddress.defaultAddr : EmailAddress :=
  { name := "", email := "" }

/-- Rust struct `EmailObject` from `src/email.rs`. -/
structure EmailObject where
  sender : EmailAddress
  to_ : List EmailAddress
  subject : String
  plain : String
  html : String
deriving DecidableEq, Repr

/-- Shape of a `reqwest::Error` as the crate can observe it: either an
HTTP-status error produced by `Response::error_for_status` (carrying the
status code) or a network-level failure. -/
inductive ReqwestErrorKind where
  | status (code : Nat)
  | network (msg : String)
deriving DecidableEq, Repr

/-- Rust enum `EmailError` from `src/errors.rs`.  Payloads of foreign error
types are embedded as the data the crate's behaviour depends on. -/
inductive EmailError where
  | AddressError (addr : String)
  | Lettre (msg : String)
  | SmtpError (msg : String)
  | UnexpectedError (msg : String)
  | MailsendHeaderError
  | ReqwestError (e : ReqwestErrorKind)
deriving DecidableEq, Repr

/-- Decidable equality for `Except`, used by the outcome types below. -/
instance {ε α : Type} [DecidableEq ε] [DecidableEq α] : DecidableEq (Except ε α) := by
  intro x y
  cases x <;> cases y
  case error.error a b =>
    exact if h : a = b then .isTrue (by rw [h]) else .isFalse (by intro hc; cases hc; exact h rfl)
  case ok.ok a b =>
    exact if h : a = b then .isTrue (by rw [h]) else .isFalse (by intro hc; cases hc; exact h rfl)
  case error.ok a b => exact .isFalse (by intro hc; cases hc)
  case ok.error a b => exact .isFalse (by intro hc; cases hc)

/-- State of a `std::sync::mpsc::sync_channel` bounded channel: its capacity,
the buffered messages in FIFO order, and whether the `Receiver` is still
alive (not dropped). -/
structure Channel (α : Type) where
  cap : Nat
  buf : List α
  receiverAlive : Bool
deriving DecidableEq, Repr

/-- Outcome of one call to `SyncSender::send` on a channel in a given state. -/
inductive SendOutcome (α : Type) where
  | delivered (c : Channel α)
  | disconnected
  | blocked
deriving DecidableEq, Repr

/-- Behaviour of `std::sync::mpsc::SyncSender::send`, per its documentation:
it returns `Err(SendError)` when the receiving half has disconnected, appends
the message to the buffer when there is free space, and otherwise blocks the
caller until space becomes available (it does not return). -/
def Channel.syncSend {α : Type} (c : Channel α) (x : α) : SendOutcome α :=
  if c.receiverAlive = false then .disconnected
  else if c.buf.length < c.cap then .delivered { c with buf := c.buf ++ [x] }
  else .blocked

/-- Rust `secrecy::Secret<String>`: a wrapper whose raw value is reachable only
through `expose_secret`. -/
structure Secret where
  expose_secret : String
deriving DecidableEq, Repr

/- ## Terminal backend (`src/clients/terminal.rs`) -/

/-- Rust struct `TerminalConfig`: only a sender string. -/
structure TerminalConfig where
  sender : String
deriving DecidableEq, Repr

/-- Rust `#[derive(Default)]` for `TerminalConfig`: empty sender. -/
def TerminalConfig.default : TerminalConfig := { sender := "" }

/-- Rust struct `TerminalClient`. -/
structure TerminalClient where
  sender : String
deriving DecidableEq, Repr

/-- Rust `TerminalClient::new`: moves the config's sender into the client. -/
def TerminalClient.new (config : TerminalConfig) : TerminalClient :=
  { sender := config.sender }

/-- Rust `#[derive(Default)]` for `TerminalClient`. -/
def TerminalClient.default : TerminalClient := { sender := "" }

/-- Rust `TerminalClient::get_sender`: in the source this impl returns the
stored sender as a `String` (`self.sender.to_string()`). -/
def TerminalClient.get_sender (c : TerminalClient) : String :=
  c.sender

/-- Effect of one `println!` call: the printed text followed by a newline. -/
def printlnS (s : String) : String := s ++ "\n"

/-- Output of the `for e in email.to_` loop of `TerminalClient::send_emails`:
one `To:` line per recipient, in order. -/
def toLinesOut (recipients : List EmailAddress) : String :=
  String.join (recipients.map (fun e => printlnS ("To: " ++ e.name ++ " <" ++ e.email ++ ">")))

/-- Everything `TerminalClient::send_emails` writes to standard output, as one
string: the six `println!` statements of the source in order.  Note the
`Subject` line is printed by `println!("Subject: \x7b\x7d\n\n", ...)`, whose
format string itself ends in two newlines. -/
def TerminalClient.sendOutput (c : TerminalClient) (email : EmailObject) : String :=
  printlnS ("From: " ++ c.sender)
  ++ toLinesOut email.to_
  ++ printlnS ("Subject: " ++ email.subject ++ "\n\n")
  ++ printlnS email.plain
  ++ printlnS "----------"
  ++ printlnS email.html

/-- Rust `TerminalClient::send_emails`: produces the terminal output and
always returns `Ok(())`. -/
def TerminalClient.send_emails (c : TerminalClient) (email : EmailObject) :
    String × Except EmailError Unit :=
  (c.sendOutput email, .ok ())

/- ## Memory backend (`src/clients/memory.rs`) -/

/-- Rust struct `MemoryConfig`: only a sender address. -/
structure MemoryConfig where
  sender : EmailAddress
deriving DecidableEq, Repr

/-- Rust `MemoryConfig::new` (with the `From<&str>` conversion for the
`impl Into<EmailAddress>` argument already applied by the caller). -/
def MemoryConfig.new (sender : EmailAddress) : MemoryConfig :=
  { sender := sender }

/-- Rust `#[derive(Default)]` for `MemoryConfig`. -/
def MemoryConfig.default : MemoryConfig := { sender := EmailAddress.defaultAddr }

/-- Rust struct `MemoryClient`: the sender plus the `SyncSender` half of a
bounded channel, embedded as the channel's state. -/
structure MemoryClient where
  sender : EmailAddress
  chan : Channel EmailObject
deriving DecidableEq, Repr

/-- Rust `impl Default for MemoryClient`: `let (tx, _) = sync_channel(5)` —
the receiver is bound to `_` and dropped immediately, so the channel has
capacity 5, an empty buffer, and no live receiver; the sender is `"".into()`. -/
def MemoryClient.default : MemoryClient :=
  { sender := EmailAddress.ofStr "", chan := { cap := 5, buf := [], receiverAlive := false } }

/-- Rust `MemoryClient::new`: `let (tx, _) = sync_channel(5)` — as in
`default`, the receiver is dropped at construction. -/
def MemoryClient.new (config : MemoryConfig) : MemoryClient :=
  { sender := config.sender, chan := { cap := 5, buf := [], receiverAlive := false } }

/-- Rust `MemoryClient::with_tx`: the caller supplies the `SyncSender`, so the
channel state (including whether the receiver is retained) is the caller's. -/
def MemoryClient.with_tx (config : MemoryConfig) (tx : Channel EmailObject) : MemoryClient :=
  { sender := config.sender, chan := tx }

/-- Rust `MemoryClient::get_sender`: clones the stored sender. -/
def MemoryClient.get_sender (c : MemoryClient) : EmailAddress :=
  c.sender

/-- Result of `MemoryClient::send_emails`: `ok` carries the channel state after
a successful hand-off; `err` a returned `EmailError`; `blocked` records that
the underlying `SyncSender::send` call blocks and does not return. -/
inductive MemorySendResult where
  | ok (chan : Channel EmailObject)
  | err (e : EmailError)
  | blocked
deriving DecidableEq, Repr

/-- Rust `MemoryClient::send_emails`: `self.tx.send(email)` with the error
mapped to `UnexpectedError("Cannot send email in memory")`. -/
def MemoryClient.send_emails (c : MemoryClient) (email : EmailObject) : MemorySendResult :=
  match c.chan.syncSend email with
  | .delivered ch => .ok ch
  | .disconnected => .err (.UnexpectedError "Cannot send email in memory")
  | .blocked => .blocked

/- ## SMTP backend (`src/clients/smtp.rs`) -/

/-- Rust enum `TlsMode`; `Local` is the `#[default]`. -/
inductive TlsMode where
  | Local
  | Tls
  | StartTls
deriving DecidableEq, Repr

/-- Rust struct `SmtpConfig`. -/
structure SmtpConfig where
  sender : EmailAddress
  relay : String
  username : String
  password : Secret
  port : Nat
  tls : TlsMode
deriving DecidableEq, Repr

/-- Rust `impl Default for SmtpConfig`: empty sender, relay "localhost",
empty credentials, `lettre::transport::smtp::SMTP_PORT` (25), `TlsMode::Local`. -/
def SmtpConfig.default : SmtpConfig :=
  { sender := EmailAddress.ofStr "", relay := "localhost", username := "",
    password := { expose_secret := "" }, port := 25, tls := TlsMode.Local }

/-- Rust `lettre::transport::smtp::authentication::Credentials`. -/
structure Credentials where
  username : String
  password : String
deriving DecidableEq, Repr

/-- Connection-security policy of the transport built by `get_transport`. -/
inductive TransportSecurity where
  | insecure
  | tls
  | starttls
deriving DecidableEq, Repr

/-- The data of an `AsyncSmtpTransport` as configured by `get_transport`:
relay host, port, optional connect timeout in seconds, optional credentials,
and the security policy. -/
structure SmtpTransport where
  relay : String
  port : Nat
  timeoutSecs : Option Nat
  credentials : Option Credentials
  security : TransportSecurity
deriving DecidableEq, Repr

/-- Result of building the transport: `lettre`'s `relay`/`starttls_relay`
constructors return a `Result`, and `get_transport` calls `.unwrap()` on them,
so a failed construction is a panic, not a returned error. -/
inductive BuildResult where
  | ok (t : SmtpTransport)
  | panicked
deriving DecidableEq, Repr

/-- Rust struct `SmtpClient`. -/
structure SmtpClient where
  config : SmtpConfig
deriving DecidableEq, Repr

/-- Rust `SmtpClient::new` (the `info!` log line has no effect on state). -/
def SmtpClient.new (config : SmtpConfig) : SmtpClient :=
  { config := config }

/-- Rust `#[derive(Default)]` for `SmtpClient`. -/
def SmtpClient.default : SmtpClient := { config := SmtpConfig.default }

/-- Rust `SmtpClient::get_sender`: clones the configured sender. -/
def SmtpClient.get_sender (c : SmtpClient) : EmailAddress :=
  c.config.sender

/-- Rust `SmtpClient::get_transport`.  `tlsSetupFails relay` is the oracle for
whether `lettre`'s fallible `relay`/`starttls_relay` constructor (which builds
TLS parameters for the hostname) returns `Err`; the source unwraps that
result, so a failure there panics.  `TlsMode::Local` uses the infallible
`builder_dangerous` with a 10-second timeout and no credentials. -/
def SmtpClient.get_transport (tlsSetupFails : String → Bool) (c : SmtpClient) : BuildResult :=
  let settings := c.config
  let creds : Credentials :=
    { username := settings.username, password := settings.password.expose_secret }
  match settings.tls with
  | TlsMode.Local =>
      .ok { relay := settings.relay, port := settings.port, timeoutSecs := some 10,
            credentials := none, security := .insecure }
  | TlsMode.Tls =>
      if tlsSetupFails settings.relay then .panicked
      else .ok { relay := settings.relay, port := settings.port, timeoutSecs := none,
                 credentials := some creds, security := .tls }
  | TlsMode.StartTls =>
      if tlsSetupFails settings.relay then .panicked
      else .ok { relay := settings.relay, port := settings.port, timeoutSecs := none,
                 credentials := some creds, security := .starttls }

/-- Rust `lettre::message::Mailbox`: optional display name plus a parsed
address (kept as its string). -/
structure Mailbox where
  name : Option String
  email : String
deriving DecidableEq, Repr

/-- Rust `impl TryInto<Mailbox> for EmailAddress` (`src/email.rs`): parse the
email string with `lettre`; on success the mailbox keeps `Some(name)` and the
address.  `addrOk` is the oracle for `lettre`'s address grammar. -/
def EmailAddress.tryIntoMailbox (addrOk : String → Bool) (a : EmailAddress) :
    Except EmailError Mailbox :=
  if addrOk a.email then .ok { name := some a.name, email := a.email }
  else .error (.AddressError a.email)

/-- The `for addr in email.to_` loop of `SmtpClient::send_emails`: convert each
recipient, failing at the first address that does not parse. -/
def mailboxesOf (addrOk : String → Bool) : List EmailAddress → Except EmailError (List Mailbox)
  | [] => .ok []
  | a :: rest =>
    match a.tryIntoMailbox addrOk with
    | .error e => .error e
    | .ok mb =>
      match mailboxesOf addrOk rest with
      | .error e => .error e
      | .ok mbs => .ok (mb :: mbs)

/-- Rust `lettre::message::MultiPart::alternative_plain_html`: a multipart
alternative body with the plain part and the HTML part. -/
structure MultiPart where
  plain : String
  html : String
deriving DecidableEq, Repr

/-- MIME message assembled by `SmtpClient::send_emails` via `Message::builder()`:
`from` and `reply_to` headers, the `to` list, the subject, and the multipart
alternative body.  (`from` is spelled `from_` because `from` is reserved.) -/
structure Message where
  from_ : Mailbox
  reply_to : Mailbox
  to_ : List Mailbox
  subject : String
  body : MultiPart
deriving DecidableEq, Repr

/-- Environment of oracles for the external libraries consulted during a send:
`lettre` TLS setup and address parsing, the SMTP transport's wire result,
`reqwest` header validation, the HTTP response status, and a possible
network-level HTTP failure. -/
structure SendEnv where
  tlsSetupFails : String → Bool
  addrOk : String → Bool
  smtpTransportErr : SmtpTransport → Message → Option String
  headerOk : String → Bool
  httpStatus : Nat
  httpNetErr : Option String

/-- Outcome of `SmtpClient::send_emails`: a panic (from the unwrapped
transport builder), a returned typed error, or a submission of the built
message over the built transport. -/
inductive SmtpSendOutcome where
  | panicked
  | err (e : EmailError)
  | sent (t : SmtpTransport) (m : Message)
deriving DecidableEq, Repr

/-- Body of `SmtpClient::send_emails` after the transport has been built:
build the multipart body, convert sender (for `from` and `reply_to`) and each
recipient (each `?` returns an `AddressError`), attach the subject and body
(`lettre` rejects a message with no recipients: `Error::MissingTo`), then
submit over the transport (`?` returns an `SmtpError`). -/
def SmtpClient.send_over (env : SendEnv) (c : SmtpClient) (transport : SmtpTransport)
    (email : EmailObject) : SmtpSendOutcome :=
    let email_body := MultiPart.mk email.plain email.html
    match EmailAddress.tryIntoMailbox env.addrOk c.get_sender with
    | .error e => .err e
    | .ok fromMb =>
      match EmailAddress.tryIntoMailbox env.addrOk c.get_sender with
      | .error e => .err e
      | .ok replyMb =>
        match mailboxesOf env.addrOk email.to_ with
        | .error e => .err e
        | .ok toMbs =>
          if toMbs.isEmpty then .err (.Lettre "MissingTo")
          else
            let message : Message :=
              { from_ := fromMb, reply_to := replyMb, to_ := toMbs,
                subject := email.subject, body := email_body }
            match env.smtpTransportErr transport message with
            | some msg => .err (.SmtpError msg)
            | none => .sent transport message

/-- Rust `SmtpClient::send_emails`, in source order: build a fresh transport
from the stored config (which may panic through the `unwrap` inside
`get_transport`), then build and submit the message (`send_over`). -/
def SmtpClient.send_emails (env : SendEnv) (c : SmtpClient) (email : EmailObject) :
    SmtpSendOutcome :=
  match SmtpClient.get_transport env.tlsSetupFails c with
  | .panicked => .panicked
  | .ok transport => SmtpClient.send_over env c transport email

/- ## MailerSend backend (`src/clients/mailersend.rs`) -/

/-- Rust `trim_end_matches('/')`: drop every trailing slash. -/
def trimEndSlashes (s : String) : String :=
  String.mk ((s.data.reverse.dropWhile (fun ch => ch = '/')).reverse)

/-- Rust struct `MailerSendConfig`. -/
structure MailerSendConfig where
  sender : EmailAddress
  base_url : String
  api_token : Secret
deriving DecidableEq, Repr

/-- Rust `impl Default for MailerSendConfig`: empty sender, the well-known
provider base URL, empty token. -/
def MailerSendConfig.default : MailerSendConfig :=
  { sender := EmailAddress.ofStr "", base_url := "https://api.mailersend.com/v1",
    api_token := { expose_secret := "" } }

/-- Rust builder `MailerSendConfig::base_url`: stores the value with trailing
slashes removed. -/
def MailerSendConfig.set_base_url (c : MailerSendConfig) (value : String) : MailerSendConfig :=
  { c with base_url := trimEndSlashes value }

/-- Rust builder `MailerSendConfig::sender`. -/
def MailerSendConfig.set_sender (c : MailerSendConfig) (value : EmailAddress) : MailerSendConfig :=
  { c with sender := value }

/-- Rust builder `MailerSendConfig::api_token`. -/
def MailerSendConfig.set_api_token (c : MailerSendConfig) (value : String) : MailerSendConfig :=
  { c with api_token := { expose_secret := value } }

/-- Rust `MailerSendConfig::get_sender`. -/
def MailerSendConfig.get_sender (c : MailerSendConfig) : EmailAddress :=
  c.sender

/-- Rust struct `MailerSendClient` (the `reqwest::Client` connection pool
carries no observable state). -/
structure MailerSendClient where
  config : MailerSendConfig
deriving DecidableEq, Repr

/-- Rust `MailerSendClient::new`: stores the config and creates the reusable
`reqwest::Client`. -/
def MailerSendClient.new (config : MailerSendConfig) : MailerSendClient :=
  { config := config }

/-- Rust `#[derive(Default)]` for `MailerSendClient`. -/
def MailerSendClient.default : MailerSendClient := { config := MailerSendConfig.default }

/-- Rust `MailerSendClient::get_sender`. -/
def MailerSendClient.get_sender (c : MailerSendClient) : EmailAddress :=
  c.config.get_sender

/-- Rust `MailerSendClient::url`: the stored base URL with trailing slashes
removed, followed by "/email". -/
def MailerSendClient.url (c : MailerSendClient) : String :=
  trimEndSlashes c.config.base_url ++ "/email"

/-- The authorization header value built by `MailerSendClient::headers`. -/
def MailerSendClient.authValue (c : MailerSendClient) : String :=
  "Bearer " ++ c.config.api_token.expose_secret

/-- Rust struct `EmailPayload`: the JSON body sent to the API. -/
structure EmailPayload where
  from_ : EmailAddress
  to_ : List EmailAddress
  subject : String
  text : String
  html : String
deriving DecidableEq, Repr

/-- Rust `impl From<EmailObject> for EmailPayload`: field transfer with
`sender` as `from` and `plain` as `text`. -/
def EmailPayload.ofEmailObject (value : EmailObject) : EmailPayload :=
  { from_ := value.sender, to_ := value.to_, subject := value.subject,
    text := value.plain, html := value.html }

/-- One HTTP request as issued by `MailerSendClient::send_emails`. -/
structure HttpRequest where
  method : String
  url : String
  authorization : String
  body : EmailPayload
deriving DecidableEq, Repr

/-- Outcome of `MailerSendClient::send_emails`: either the header value was
rejected before any request was made, or exactly one request was issued and
its result returned. -/
inductive HttpOutcome where
  | err (e : EmailError)
  | requested (r : HttpRequest) (result : Except EmailError Unit)
deriving DecidableEq, Repr

/-- Whether `reqwest`'s `Response::error_for_status` treats a status code as a
failure: exactly the client-error (4xx) and server-error (5xx) classes. -/
def reqwestStatusFails (status : Nat) : Bool :=
  decide (400 ≤ status ∧ status ≤ 599)

/-- Rust `MailerSendClient::send_emails`: build the payload from the message,
build the headers (`?` returns `MailsendHeaderError` on an invalid value),
issue one authenticated POST to `url()`, propagate a network failure (`?` on
`send()`), then `error_for_status()` (`?` maps a 4xx/5xx status to a
`ReqwestError` carrying the status). -/
def MailerSendClient.send_emails (env : SendEnv) (c : MailerSendClient) (email : EmailObject) :
    HttpOutcome :=
  let payload := EmailPayload.ofEmailObject email
  if env.headerOk c.authValue = false then .err .MailsendHeaderError
  else
    let req : HttpRequest :=
      { method := "POST", url := c.url, authorization := c.authValue, body := payload }
    match env.httpNetErr with
    | some msg => .requested req (.error (.ReqwestError (.network msg)))
    | none =>
      if reqwestStatusFails env.httpStatus then
        .requested req (.error (.ReqwestError (.status env.httpStatus)))
      else .requested req (.ok ())

/- ## Configurations, factory and erasure (`src/configuration.rs`, `src/clients/mod.rs`) -/

/-- Rust enum `EmailConfiguration`. -/
inductive EmailConfiguration where
  | Terminal (c : TerminalConfig)
  | SMTP (c : SmtpConfig)
  | Memory (c : MemoryConfig)
  | Mailersend (c : MailerSendConfig)
deriving DecidableEq, Repr

/-- Rust enum `EmailClient`. -/
inductive EmailClient where
  | Smtp (c : SmtpClient)
  | Terminal (c : TerminalClient)
  | Memory (c : MemoryClient)
  | MailerSend (c : MailerSendClient)
deriving DecidableEq, Repr

/-- Rust `get_email_client`: maps each configuration variant to the matching
client variant through that client's `new`. -/
def get_email_client : EmailConfiguration → EmailClient
  | .Terminal c => .Terminal (TerminalClient.new c)
  | .SMTP c => .Smtp (SmtpClient.new c)
  | .Memory c => .Memory (MemoryClient.new c)
  | .Mailersend c => .MailerSend (MailerSendClient.new c)

/-- Value returned by `get_sender` through dynamic dispatch.  In the source the
terminal impl returns a `String` while the other three return `EmailAddress`,
so the dispatched value lives in a sum. -/
inductive SenderValue where
  | str (s : String)
  | addr (a : EmailAddress)
deriving DecidableEq, Repr

/-- Dynamic dispatch of `get_sender` over the client enum. -/
def EmailClient.get_sender : EmailClient → SenderValue
  | .Smtp c => .addr c.get_sender
  | .Terminal c => .str c.get_sender
  | .Memory c => .addr c.get_sender
  | .MailerSend c => .addr c.get_sender

/-- Outcome of a dispatched `send_emails`, tagged by backend. -/
inductive DynSendOutcome where
  | terminal (r : String × Except EmailError Unit)
  | memory (r : MemorySendResult)
  | smtp (r : SmtpSendOutcome)
  | mailersend (r : HttpOutcome)
deriving DecidableEq, Repr

/-- Dynamic dispatch of `send_emails` over the client enum. -/
def EmailClient.send_emails (env : SendEnv) : EmailClient → EmailObject → DynSendOutcome
  | .Smtp c, e => .smtp (SmtpClient.send_emails env c e)
  | .Terminal c, e => .terminal (TerminalClient.send_emails c e)
  | .Memory c, e => .memory (MemoryClient.send_emails c e)
  | .MailerSend c, e => .mailersend (MailerSendClient.send_emails env c e)

/-- Rust `Box<dyn EmailTrait + Send>`: the trait object produced by
`EmailClient::unwrap` retains the concrete client and dispatches to it. -/
structure BoxedEmailTrait where
  client : EmailClient
deriving DecidableEq, Repr

/-- Rust `EmailClient::unwrap`: every variant is boxed as the trait object;
the operation is total (infallible). -/
def EmailClient.unwrap (c : EmailClient) : BoxedEmailTrait :=
  { client := c }

/-- Trait-object `get_sender`: dispatches to the boxed client. -/
def BoxedEmailTrait.get_sender (b : BoxedEmailTrait) : SenderValue :=
  b.client.get_sender

/-- Trait-object `send_emails`: dispatches to the boxed client. -/
def BoxedEmailTrait.send_emails (env : SendEnv) (b : BoxedEmailTrait) (email : EmailObject) :
    DynSendOutcome :=
  b.client.send_emails env email

/- ## Fixtures and claim-side renderings -/

/-- Benign library environment: TLS setup succeeds for every relay, every
address parses, the SMTP wire and the HTTP network never fail, every header
value is accepted, and the HTTP response status is 200. -/
def okEnv : SendEnv :=
  { tlsSetupFails := fun _ => false, addrOk := fun _ => true,
    smtpTransportErr := fun _ _ => none, headerOk := fun _ => true,
    httpStatus := 200, httpNetErr := none }

/-- Environment whose HTTP response status is 304 (a non-2xx success for
`error_for_status`). -/
def env304 : SendEnv := { okEnv with httpStatus := 304 }

/-- Environment whose HTTP response status is 401. -/
def env401 : SendEnv := { okEnv with httpStatus := 401 }

/-- Environment in which `lettre`'s fallible TLS-relay constructor fails for
every hostname. -/
def tlsFailingEnv : SendEnv := { okEnv with tlsSetupFails := fun _ => true }

/-- The example message used throughout the spec's testable properties. -/
def exampleEmail : EmailObject :=
  { sender := EmailAddress.ofStr "test@example.com",
    to_ := [{ name := "Mail", email := "mail@example.com" }],
    subject := "New subject", plain := "Body of email",
    html := "Body of email in <b>HTML</b>" }

/-- A MailerSend client configured with the token of the spec's mock test. -/
def client304 : MailerSendClient :=
  MailerSendClient.new (MailerSendConfig.default.set_api_token "API_TOKEN")

/-- Terminal-output layout asserted by the claim (refinement target, written
from the claim's words, not from the source): From line, To lines, Subject
line, ONE blank line, the plain body, the separator, the HTML body. -/
def terminalClaimedOutput (c : TerminalClient) (email : EmailObject) : String :=
  printlnS ("From: " ++ c.sender)
  ++ toLinesOut email.to_
  ++ printlnS ("Subject: " ++ email.subject)
  ++ printlnS ""
  ++ printlnS email.plain
  ++ printlnS "----------"
  ++ printlnS email.html

/-- Amended terminal-output layout: the Subject `println!`'s format string
ends in two newlines, so TWO blank lines separate the Subject line from the
plain body. -/
def terminalAmendedOutput (c : TerminalClient) (email : EmailObject) : String :=
  printlnS ("From: " ++ c.sender)
  ++ toLinesOut email.to_
  ++ printlnS ("Subject: " ++ email.subject)
  ++ printlnS ""
  ++ printlnS ""
  ++ printlnS email.plain
  ++ printlnS "----------"
  ++ printlnS email.html

/- ## Helper lemmas -/

/-- String append acts as list append on the underlying character data. -/
theorem string_data_append (a b : String) : (a ++ b).data = a.data ++ b.data := rfl

/-- Strings with equal character data are equal. -/
theorem string_eq_of_data {a b : String} (h : a.data = b.data) : a = b := by
  cases a; cases b; exact congrArg String.mk h

/-- When every recipient address parses, the conversion loop of
`SmtpClient::send_emails` returns one mailbox per recipient, in order. -/
theorem mailboxesOf_all_parse (addrOk : String → Bool) :
    ∀ l : List EmailAddress, (∀ a ∈ l, addrOk a.email = true) →
      mailboxesOf addrOk l = .ok (l.map (fun a => { name := some a.name, email := a.email })) := by
  intro l h
  induction l with
  | nil => rfl
  | cons a rest ih =>
    have ha : addrOk a.email = true := h a (List.mem_cons_self a rest)
    have hr := ih (fun b hb => h b (List.mem_cons_of_mem a hb))
    simp [mailboxesOf, EmailAddress.tryIntoMailbox, ha, hr]

/-- The transport builder panics exactly when the TLS mode is not `Local` and
the TLS setup for the configured relay fails. -/
theorem get_transport_panic_iff (f : String → Bool) (c : SmtpClient) :
    SmtpClient.get_transport f c = .panicked ↔
      (c.config.tls ≠ TlsMode.Local ∧ f c.config.relay = true) := by
  cases htls : c.config.tls with
  | Local => simp [SmtpClient.get_transport, htls]
  | Tls => cases hf : f c.config.relay <;> simp [SmtpClient.get_transport, htls, hf]
  | StartTls => cases hf : f c.config.relay <;> simp [SmtpClient.get_transport, htls, hf]

/-- After the transport is built, no later step of the SMTP send can panic:
every failure is a returned error. -/
theorem send_over_ne_panicked (env : SendEnv) (c : SmtpClient) (t : SmtpTransport)
    (e : EmailObject) : SmtpClient.send_over env c t e ≠ .panicked := by
  unfold SmtpClient.send_over
  cases h1 : EmailAddress.tryIntoMailbox env.addrOk c.get_sender with
  | error e1 => simp
  | ok fromMb =>
    simp only []
    cases h2 : mailboxesOf env.addrOk e.to_ with
    | error e2 => simp
    | ok mbs =>
      cases h3 : mbs.isEmpty with
      | true => simp [h3]
      | false =>
        cases h4 : env.smtpTransportErr t
            { from_ := fromMb, reply_to := fromMb, to_ := mbs,
              subject := e.subject, body := MultiPart.mk e.plain e.html } <;>
          simp [h3, h4]

/- ## Claim theorems -/

/-- C1, counterexample: with a live receiver and a full channel (capacity 1,
one message already buffered), `MemoryClient::send_emails` neither delivers
the message nor returns an `UnexpectedError` — the underlying
`SyncSender::send` blocks the caller.  This refutes the claim that `send`
returns an error whenever the channel is full. -/
theorem memory_send_full_channel_blocks :
    MemoryClient.send_emails
      (MemoryClient.with_tx (MemoryConfig.new (EmailAddress.ofStr "test@example.com"))
        { cap := 1, buf := [exampleEmail], receiverAlive := true })
      exampleEmail = MemorySendResult.blocked := rfl

/-- C1, amended: `send_emails` returns
`UnexpectedError "Cannot send email in memory"` when the receiving end has
been dropped; delivers the message (appending it to the buffer) when the
receiver is alive and the channel has free capacity; and blocks — rather than
returning — when the receiver is alive and the channel is full. -/
theorem memory_send_characterisation (c : MemoryClient) (e : EmailObject) :
    (c.chan.receiverAlive = false →
      c.send_emails e = .err (.UnexpectedError "Cannot send email in memory"))
    ∧ (c.chan.receiverAlive = true → c.chan.buf.length < c.chan.cap →
      c.send_emails e = .ok { c.chan with buf := c.chan.buf ++ [e] })
    ∧ (c.chan.receiverAlive = true → c.chan.cap ≤ c.chan.buf.length →
      c.send_emails e = .blocked) := by
  refine ⟨?_, ?_, ?_⟩
  · intro h
    simp [MemoryClient.send_emails, Channel.syncSend, h]
  · intro h hlen
    simp [MemoryClient.send_emails, Channel.syncSend, h, hlen]
  · intro h hlen
    simp [MemoryClient.send_emails, Channel.syncSend, h, Nat.not_lt.mpr hlen]

/-- C1, witness for the amended theorem: a concrete delivery through a live
channel with free capacity. -/
theorem memory_send_characterisation_witness :
    MemoryClient.send_emails
      (MemoryClient.with_tx MemoryConfig.default { cap := 2, buf := [], receiverAlive := true })
      exampleEmail = .ok { cap := 2, buf := [exampleEmail], receiverAlive := true } :=
  (memory_send_characterisation
    (MemoryClient.with_tx MemoryConfig.default { cap := 2, buf := [], receiverAlive := true })
    exampleEmail).2.1 rfl (by decide)

/-- C2: for every backend, a client built from a configuration answers
`get_sender` with exactly the configured sender (round-trip identity), and
every default (unconfigured) client's sender displays as the empty string. -/
theorem get_sender_round_trip :
    (∀ c : TerminalConfig, (TerminalClient.new c).get_sender = c.sender)
    ∧ (∀ c : MemoryConfig, (MemoryClient.new c).get_sender = c.sender)
    ∧ (∀ c : MemoryConfig, ∀ tx : Channel EmailObject,
        (MemoryClient.with_tx c tx).get_sender = c.sender)
    ∧ (∀ c : SmtpConfig, (SmtpClient.new c).get_sender = c.sender)
    ∧ (∀ c : MailerSendConfig, (MailerSendClient.new c).get_sender = c.sender)
    ∧ (TerminalClient.new TerminalConfig.default).get_sender = ""
    ∧ MemoryClient.default.get_sender.display = ""
    ∧ SmtpClient.default.get_sender.display = ""
    ∧ MailerSendClient.default.get_sender.display = "" :=
  ⟨fun _ => rfl, fun _ => rfl, fun _ _ => rfl, fun _ => rfl, fun _ => rfl,
    rfl, by decide, by decide, by decide⟩

/-- C3: the factory maps each configuration variant to the matching client
variant, transferring exactly the configuration's fields (for Memory, plus
the internally created capacity-5 channel whose receiver is dropped), and
`unwrap` is a total function whose boxed handle dispatches `get_sender` and
`send_emails` exactly to the concrete client it erases. -/
theorem factory_and_unwrap_correct :
    (∀ c : TerminalConfig, get_email_client (.Terminal c) = .Terminal { sender := c.sender })
    ∧ (∀ c : SmtpConfig, get_email_client (.SMTP c) = .Smtp { config := c })
    ∧ (∀ c : MemoryConfig, get_email_client (.Memory c) =
        .Memory { sender := c.sender, chan := { cap := 5, buf := [], receiverAlive := false } })
    ∧ (∀ c : MailerSendConfig, get_email_client (.Mailersend c) = .MailerSend { config := c })
    ∧ (∀ cl : EmailClient, cl.unwrap.get_sender = cl.get_sender)
    ∧ (∀ env : SendEnv, ∀ cl : EmailClient, ∀ e : EmailObject,
        cl.unwrap.send_emails env e = cl.send_emails env e) :=
  ⟨fun _ => rfl, fun _ => rfl, fun _ => rfl, fun _ => rfl, fun _ => rfl, fun _ _ _ => rfl⟩

/-- C4, counterexample: under `TlsMode::Tls`, when `lettre`'s fallible relay
constructor fails for the configured hostname, `send_emails` panics through
`unwrap` instead of returning a typed `EmailError`.  This refutes the claim
that every failure is returned as a typed error for every relay hostname. -/
theorem smtp_send_panics_on_tls_setup_failure :
    SmtpClient.send_emails tlsFailingEnv
      (SmtpClient.new { SmtpConfig.default with tls := TlsMode.Tls }) exampleEmail
      = SmtpSendOutcome.panicked := rfl

/-- C4, amended: `send_emails` aborts (panics) exactly when the TLS mode is
`Tls` or `StartTls` and the TLS setup for the configured relay fails — the
source unwraps that builder result; in every other case all address-parsing,
message-build and transport failures are returned as typed `EmailError`
values, with no internal retry. -/
theorem smtp_send_panic_characterisation (env : SendEnv) (c : SmtpClient) (e : EmailObject) :
    SmtpClient.send_emails env c e = .panicked ↔
      (c.config.tls ≠ TlsMode.Local ∧ env.tlsSetupFails c.config.relay = true) := by
  constructor
  · intro h
    cases htr : SmtpClient.get_transport env.tlsSetupFails c with
    | panicked => exact (get_transport_panic_iff env.tlsSetupFails c).mp htr
    | ok t =>
      rw [SmtpClient.send_emails, htr] at h
      exact absurd h (send_over_ne_panicked env c t e)
  · intro h
    have htr : SmtpClient.get_transport env.tlsSetupFails c = .panicked :=
      (get_transport_panic_iff env.tlsSetupFails c).mpr h
    rw [SmtpClient.send_emails, htr]

/-- C4, witness: with a benign TLS environment a default (Local) client's send
does not panic. -/
theorem smtp_send_panic_characterisation_witness :
    SmtpClient.send_emails okEnv SmtpClient.default exampleEmail ≠ SmtpSendOutcome.panicked :=
  fun hc =>
    ((smtp_send_panic_characterisation okEnv SmtpClient.default exampleEmail).mp hc).1 rfl

/-- C5, counterexample: a 304 response (not a 2xx status) is treated as
success, because the source uses `error_for_status`, which fails only on
4xx/5xx.  This refutes "send returns success iff the response status is
2xx". -/
theorem mailersend_304_success_but_not_2xx :
    (MailerSendClient.send_emails env304 client304 exampleEmail =
      .requested
        { method := "POST", url := "https://api.mailersend.com/v1/email",
          authorization := "Bearer API_TOKEN",
          body := EmailPayload.ofEmailObject exampleEmail } (.ok ()))
    ∧ ¬ (200 ≤ env304.httpStatus ∧ env304.httpStatus ≤ 299) :=
  ⟨by decide, by decide⟩

/-- C5, amended: with an acceptable header value and no network failure,
`send_emails` issues exactly one POST to the configured base URL (trailing
slashes removed) followed by "/email", with authorization "Bearer " plus the
token and the JSON payload mapping sender to `from`, recipients to `to`,
subject, plain body to `text`, and html; it succeeds iff the response status
is not a 4xx/5xx error, and on a 4xx/5xx status returns, without retrying, an
error embedding that status. -/
theorem mailersend_send_contract (env : SendEnv) (c : MailerSendClient) (e : EmailObject)
    (hok : env.headerOk c.authValue = true) (hnet : env.httpNetErr = none) :
    (reqwestStatusFails env.httpStatus = false →
      MailerSendClient.send_emails env c e =
        .requested
          { method := "POST", url := trimEndSlashes c.config.base_url ++ "/email",
            authorization := "Bearer " ++ c.config.api_token.expose_secret,
            body := { from_ := e.sender, to_ := e.to_, subject := e.subject,
                      text := e.plain, html := e.html } } (.ok ()))
    ∧ (reqwestStatusFails env.httpStatus = true →
      MailerSendClient.send_emails env c e =
        .requested
          { method := "POST", url := trimEndSlashes c.config.base_url ++ "/email",
            authorization := "Bearer " ++ c.config.api_token.expose_secret,
            body := { from_ := e.sender, to_ := e.to_, subject := e.subject,
                      text := e.plain, html := e.html } }
          (.error (.ReqwestError (.status env.httpStatus)))) := by
  simp only [MailerSendClient.authValue] at hok
  constructor <;> intro hstat <;>
    simp [MailerSendClient.send_emails, MailerSendClient.url, MailerSendClient.authValue,
      EmailPayload.ofEmailObject, hok, hnet, hstat]

/-- C5, witness for the amended theorem: a concrete 401 response yields an
error embedding status 401. -/
theorem mailersend_send_contract_witness :
    MailerSendClient.send_emails env401 client304 exampleEmail =
      .requested
        { method := "POST", url := "https://api.mailersend.com/v1/email",
          authorization := "Bearer API_TOKEN",
          body := EmailPayload.ofEmailObject exampleEmail }
        (.error (.ReqwestError (.status 401))) :=
  (mailersend_send_contract env401 client304 exampleEmail rfl rfl).2 (by decide)

/-- C6: when the sender and every recipient address parse and there is at
least one recipient, `send_emails` submits, over the transport built fresh
from the stored configuration by `get_transport`, a multipart plain+HTML
message whose `From` and `Reply-To` both equal the configured sender, with
one `To` mailbox per recipient in order and the message's subject. -/
theorem smtp_send_builds_message (env : SendEnv) (c : SmtpClient) (e : EmailObject)
    (t : SmtpTransport)
    (hs : env.addrOk c.config.sender.email = true)
    (hr : ∀ a ∈ e.to_, env.addrOk a.email = true)
    (hne : e.to_ ≠ [])
    (ht : SmtpClient.get_transport env.tlsSetupFails c = .ok t)
    (hw : env.smtpTransportErr t
        { from_ := { name := some c.config.sender.name, email := c.config.sender.email },
          reply_to := { name := some c.config.sender.name, email := c.config.sender.email },
          to_ := e.to_.map (fun a => { name := some a.name, email := a.email }),
          subject := e.subject, body := { plain := e.plain, html := e.html } } = none) :
    SmtpClient.send_emails env c e =
      .sent t
        { from_ := { name := some c.config.sender.name, email := c.config.sender.email },
          reply_to := { name := some c.config.sender.name, email := c.config.sender.email },
          to_ := e.to_.map (fun a => { name := some a.name, email := a.email }),
          subject := e.subject, body := { plain := e.plain, html := e.html } } := by
  have hmb := mailboxesOf_all_parse env.addrOk e.to_ hr
  have hempty : (e.to_.map
      (fun a => ({ name := some a.name, email := a.email } : Mailbox))).isEmpty = false := by
    cases hto : e.to_ with
    | nil => exact absurd hto hne
    | cons a rest => rfl
  rw [SmtpClient.send_emails, ht]
  unfold SmtpClient.send_over
  simp [EmailAddress.tryIntoMailbox, SmtpClient.get_sender, hs, hmb, hempty, hw]

/-- C6, witness: a concrete Local-mode send of the example message through a
benign environment; `From` and `Reply-To` carry the configured sender. -/
theorem smtp_send_builds_message_witness :
    SmtpClient.send_emails okEnv
      (SmtpClient.new { SmtpConfig.default with sender := EmailAddress.ofStr "from@example.com" })
      exampleEmail =
      .sent
        { relay := "localhost", port := 25, timeoutSecs := some 10,
          credentials := none, security := .insecure }
        { from_ := { name := some "", email := "from@example.com" },
          reply_to := { name := some "", email := "from@example.com" },
          to_ := [{ name := some "Mail", email := "mail@example.com" }],
          subject := "New subject",
          body := { plain := "Body of email", html := "Body of email in <b>HTML</b>" } } := by
  have h := smtp_send_builds_message okEnv
    (SmtpClient.new { SmtpConfig.default with sender := EmailAddress.ofStr "from@example.com" })
    exampleEmail
    { relay := "localhost", port := 25, timeoutSecs := some 10,
      credentials := none, security := .insecure }
    rfl (fun _ _ => rfl) (by decide) rfl rfl
  simpa only [SmtpClient.new, SmtpConfig.default, EmailAddress.ofStr, exampleEmail,
    List.map_cons, List.map_nil] using h

/-- C7: through a caller-supplied channel with a live receiver and room for
two more messages, two consecutive sends deliver both messages, equal by
value to the messages sent, in FIFO order (the second send is performed
through the same sender handle, whose shared channel state is the state left
by the first send); instantiating both messages to the same value shows that
sending the same message twice enqueues two equal-by-value entries. -/
theorem memory_send_order_and_duplication (cfg : MemoryConfig) (st : Channel EmailObject)
    (e1 e2 : EmailObject) (halive : st.receiverAlive = true)
    (hcap : st.buf.length + 2 ≤ st.cap) :
    MemoryClient.send_emails (MemoryClient.with_tx cfg st) e1 =
      .ok { st with buf := st.buf ++ [e1] }
    ∧ MemoryClient.send_emails
        (MemoryClient.with_tx cfg { st with buf := st.buf ++ [e1] }) e2 =
      .ok { st with buf := st.buf ++ [e1] ++ [e2] } := by
  constructor
  · have hlen : st.buf.length < st.cap := by omega
    simp [MemoryClient.send_emails, MemoryClient.with_tx, Channel.syncSend, halive, hlen]
  · have hlen : st.buf.length + 1 < st.cap := by omega
    simp [MemoryClient.send_emails, MemoryClient.with_tx, Channel.syncSend, halive, hlen]

/-- C7, witness: sending the spec's example message twice through a live
capacity-2 channel enqueues it twice, in order. -/
theorem memory_send_order_and_duplication_witness :
    MemoryClient.send_emails
      (MemoryClient.with_tx (MemoryConfig.new (EmailAddress.ofStr "test@example.com"))
        { cap := 2, buf := [], receiverAlive := true }) exampleEmail =
      .ok { cap := 2, buf := [exampleEmail], receiverAlive := true }
    ∧ MemoryClient.send_emails
        (MemoryClient.with_tx (MemoryConfig.new (EmailAddress.ofStr "test@example.com"))
          { cap := 2, buf := [exampleEmail], receiverAlive := true }) exampleEmail =
      .ok { cap := 2, buf := [exampleEmail, exampleEmail], receiverAlive := true } :=
  memory_send_order_and_duplication
    (MemoryConfig.new (EmailAddress.ofStr "test@example.com"))
    { cap := 2, buf := [], receiverAlive := true }
    exampleEmail exampleEmail rfl (by decide)

/-- C8: under `TlsMode::Local`, for every configuration (credentials
included or empty) and every behaviour of the fallible TLS setup, building
the transport succeeds, applies no credentials, uses an insecure connection
to the configured relay and port, and sets a 10-second connect timeout. -/
theorem smtp_local_transport (f : String → Bool) (c : SmtpConfig)
    (h : c.tls = TlsMode.Local) :
    SmtpClient.get_transport f (SmtpClient.new c) =
      .ok { relay := c.relay, port := c.port, timeoutSecs := some 10,
            credentials := none, security := .insecure } := by
  simp [SmtpClient.get_transport, SmtpClient.new, h]

/-- C8, witness: the default configuration (empty username and password,
Local mode) builds the insecure transport even when TLS setup would fail for
every hostname. -/
theorem smtp_local_transport_witness :
    SmtpClient.get_transport (fun _ => true) (SmtpClient.new SmtpConfig.default) =
      .ok { relay := "localhost", port := 25, timeoutSecs := some 10,
            credentials := none, security := .insecure } :=
  smtp_local_transport (fun _ => true) SmtpConfig.default rfl

/-- C9, counterexample: the terminal output does not match the claimed layout
with a single blank line after the Subject line — the Subject `println!`'s
format string ends in two newlines, so there are two blank lines. -/
theorem terminal_output_one_blank_line_false :
    TerminalClient.sendOutput { sender := "" } exampleEmail ≠
      terminalClaimedOutput { sender := "" } exampleEmail := by decide

/-- C9, amended: for every client and message, `send_emails` writes, in
order, the From line, one To line per recipient with name and address, the
Subject line, TWO blank lines, the plain body, the separator line and the
HTML body — and always returns success. -/
theorem terminal_send_output_layout (c : TerminalClient) (e : EmailObject) :
    TerminalClient.send_emails c e = (terminalAmendedOutput c e, .ok ()) := by
  unfold TerminalClient.send_emails
  refine congrArg (fun s => (s, Except.ok ())) ?_
  apply string_eq_of_data
  have h2 : ("\n\n" : String).data = ['\n', '\n'] := rfl
  have h1 : ("\n" : String).data = ['\n'] := rfl
  have h0 : ("" : String).data = [] := rfl
  simp [TerminalClient.sendOutput, terminalAmendedOutput, printlnS,
    string_data_append, List.append_assoc, h0, h1, h2]

/-- C10: `MemoryClient::new` and `MemoryClient::default` (and hence the
factory on a Memory configuration) create a capacity-5 channel whose receiver
is dropped at construction, so every send through such a client fails with
`UnexpectedError "Cannot send email in memory"`; conversely any client whose
send delivers must hold a channel with a live receiver, which only `with_tx`
can supply. -/
theorem memory_receiver_dropped_at_construction (cfg : MemoryConfig) (e : EmailObject) :
    (MemoryClient.new cfg).chan = { cap := 5, buf := [], receiverAlive := false }
    ∧ MemoryClient.default.chan = { cap := 5, buf := [], receiverAlive := false }
    ∧ get_email_client (.Memory cfg) = .Memory (MemoryClient.new cfg)
    ∧ MemoryClient.send_emails (MemoryClient.new cfg) e =
        .err (.UnexpectedError "Cannot send email in memory")
    ∧ MemoryClient.send_emails MemoryClient.default e =
        .err (.UnexpectedError "Cannot send email in memory")
    ∧ (∀ c : MemoryClient, ∀ ch : Channel EmailObject,
        MemoryClient.send_emails c e = .ok ch → c.chan.receiverAlive = true) := by
  refine ⟨rfl, rfl, rfl, rfl, rfl, ?_⟩
  intro c ch h
  cases halive : c.chan.receiverAlive with
  | true => rfl
  | false =>
    simp [MemoryClient.send_emails, Channel.syncSend, halive] at h

/-- C10, witness: a factory-built memory client concretely fails to send, and
a delivering `with_tx` client concretely has a live receiver. -/
theorem memory_receiver_dropped_at_construction_witness :
    MemoryClient.send_emails (MemoryClient.new (MemoryConfig.new (EmailAddress.ofStr "a")))
      exampleEmail = .err (.UnexpectedError "Cannot send email in memory")
    ∧ (MemoryClient.with_tx MemoryConfig.default
        { cap := 2, buf := [], receiverAlive := true }).chan.receiverAlive = true :=
  ⟨(memory_receiver_dropped_at_construction (MemoryConfig.new (EmailAddress.ofStr "a"))
      exampleEmail).2.2.2.1,
    (memory_receiver_dropped_at_construction MemoryConfig.default exampleEmail).2.2.2.2.2
      (MemoryClient.with_tx MemoryConfig.default { cap := 2, buf := [], receiverAlive := true })
      { cap := 2, buf := [exampleEmail], receiverAlive := true } (by decide)⟩

end EmailClients
